import Mathlib

/-!
Verification of the Chip webhook messaging service core: the deduplication /
rate-limit cache, the outbound message model and its validators, the Loop
adapter's payload construction and event normalization, and the webhook
dispatch race behaviour.

The definitions below are a shallow embedding of the Python sources
(`app/routers/messaging.py`, `app/types/messages.py`, `app/types/events.py`,
`app/types/enums.py`, `app/adapters/loop.py`).  Python dicts are modelled as
association lists with unique keys (insertion replaces in place, deletion
filters), `datetime` instants as natural-number seconds, raising code as
`Except`, and Python truthiness is modelled explicitly where the source
relies on it.  `str.strip` / `str.lower` / `str.startswith` /
`str.endswith` are modelled by the `py*` functions below, defined over
character lists (ASCII-faithful approximations of the Python Unicode
versions, kernel-computable).
-/

namespace Chip

/-- ASCII lowercase of one character, as Python `str.lower` acts on ASCII. -/
def pyCharLower (c : Char) : Char :=
  if 65 ≤ c.toNat ∧ c.toNat ≤ 90 then Char.ofNat (c.toNat + 32) else c

/-- Python `str.lower` (ASCII-faithful model, defined over the character
list so that it is kernel-computable). -/
def pyLower (s : String) : String :=
  String.mk (s.data.map pyCharLower)

/-- Python whitespace for `str.strip`: space, tab, newline, carriage
return, vertical tab, form feed. -/
def pyIsSpace (c : Char) : Bool :=
  c.toNat = 32 ∨ c.toNat = 9 ∨ c.toNat = 10 ∨ c.toNat = 13 ∨ c.toNat = 11 ∨ c.toNat = 12

/-- Python `str.strip` with no arguments: drop whitespace from both ends. -/
def pyStrip (s : String) : String :=
  String.mk (((s.data.dropWhile pyIsSpace).reverse.dropWhile pyIsSpace).reverse)

/-- Python `str.startswith` on the character lists. -/
def pyStartsWith (s pre : String) : Bool :=
  pre.data.isPrefixOf s.data

/-- Python `str.endswith` on the character lists. -/
def pyEndsWith (s suffix : String) : Bool :=
  suffix.data.isSuffixOf s.data

/-- Python truthiness of an `Optional[str]`: `None` and `""` are falsy. -/
def truthyOpt : Option String → Bool
  | none => false
  | some s => !(s == "")

/-- Model of `x or sentinel` for `x : Optional[str]` (messaging.py line 52):
the sentinel is used when `x` is `None` or empty. -/
def orSentinel (x : Option String) (sentinel : String) : String :=
  match x with
  | none => sentinel
  | some s => if s == "" then sentinel else s

/-! ### Deduplication cache (`app/routers/messaging.py` lines 32-72)

The cache `_processed_messages : dict[str, datetime]` is modelled as an
association list `List (String × Nat)` whose `Nat` values are timestamps in
seconds.  `datetime.now()` is passed in explicitly as `now`.  The two
`timedelta` comparisons of the source (`now - timestamp > TTL` and
`now - last_processed < WINDOW`) are modelled with truncated `Nat`
subtraction, which agrees with the signed Python comparison on both
(for `timestamp ≤ now` they coincide; for `timestamp > now` both the signed
comparison and the truncated one make `> TTL` false and `< WINDOW` true). -/

/-- `_MESSAGE_CACHE_TTL = timedelta(hours=1)`, in seconds. -/
def MESSAGE_CACHE_TTL : Nat := 3600

/-- `_RATE_LIMIT_WINDOW = timedelta(seconds=10)`, in seconds. -/
def RATE_LIMIT_WINDOW : Nat := 10

/-- Python `key in d` / `d[key]` lookup on the association-list dict model. -/
def dictLookupNat : List (String × Nat) → String → Option Nat
  | [], _ => none
  | (k0, v0) :: rest, k => if k0 = k then some v0 else dictLookupNat rest k

/-- Python `d[key] = v` on the association-list dict model: replace the
binding in place if the key is present, else append. -/
def dictInsertNat : List (String × Nat) → String → Nat → List (String × Nat)
  | [], k, v => [(k, v)]
  | (k0, v0) :: rest, k, v =>
    if k0 = k then (k, v) :: rest else (k0, v0) :: dictInsertNat rest k v

/-- `_cleanup_old_messages` (lines 40-45): delete every entry whose timestamp
is older than the TTL.  Building the `expired` key list and deleting each key
is the same as filtering the dict, preserving insertion order. -/
def cleanupOldMessages (now : Nat) (cache : List (String × Nat)) :
    List (String × Nat) :=
  cache.filter (fun kv => !(now - kv.2 > MESSAGE_CACHE_TTL : Bool))

/-- `_get_message_key` (lines 48-52).  The source hashes
`text.strip().lower()` with `hashlib.md5(...).hexdigest()[:8]`; the short
hash is modelled by an arbitrary function `md5hex8 : String → String` since
no property of MD5 beyond being a function of the normalized text is used. -/
def getMessageKey (md5hex8 : String → String) (message_id recipient : Option String)
    (text : String) : String :=
  let text_hash := md5hex8 (pyLower (pyStrip text))
  orSentinel message_id "no-id" ++ "|" ++ orSentinel recipient "no-recipient" ++ "|" ++ text_hash

/-- `_is_message_processed` (lines 55-66): run the lazy cleanup, then report
a duplicate iff the key is present and within the rate-limit window.  The
returned list is the cache after the call (the cleanup mutates it). -/
def isMessageProcessed (md5hex8 : String → String) (message_id recipient : Option String)
    (text : String) (now : Nat) (cache : List (String × Nat)) :
    Bool × List (String × Nat) :=
  let cache1 := cleanupOldMessages now cache
  let key := getMessageKey md5hex8 message_id recipient text
  match dictLookupNat cache1 key with
  | some last_processed => (decide (now - last_processed < RATE_LIMIT_WINDOW), cache1)
  | none => (false, cache1)

/-- `_mark_message_processed` (lines 69-72): write the current timestamp for
the key.  Note the source performs no cleanup here. -/
def markMessageProcessed (md5hex8 : String → String) (message_id recipient : Option String)
    (text : String) (now : Nat) (cache : List (String × Nat)) :
    List (String × Nat) :=
  dictInsertNat cache (getMessageKey md5hex8 message_id recipient text) now

/-! ### Outbound message model (`app/types/messages.py`, `app/types/enums.py`) -/

/-- `ServiceType` enum (enums.py lines 6-22). -/
inductive ServiceType where
  | imessage
  | sms
deriving DecidableEq, Repr

/-- `ServiceType.value` strings. -/
def ServiceType.value : ServiceType → String
  | .imessage => "imessage"
  | .sms => "sms"

/-- `ReactionType` enum (enums.py lines 25-49), in declaration order. -/
inductive ReactionType where
  | love
  | like
  | dislike
  | laugh
  | exclaim
  | question
  | loveRemove
  | likeRemove
  | dislikeRemove
  | laughRemove
  | exclaimRemove
  | questionRemove
  | unknown
deriving DecidableEq, Repr

/-- `ReactionType.value` strings (removal variants carry the `-` marker). -/
def ReactionType.value : ReactionType → String
  | .love => "love"
  | .like => "like"
  | .dislike => "dislike"
  | .laugh => "laugh"
  | .exclaim => "exclaim"
  | .question => "question"
  | .loveRemove => "-love"
  | .likeRemove => "-like"
  | .dislikeRemove => "-dislike"
  | .laughRemove => "-laugh"
  | .exclaimRemove => "-exclaim"
  | .questionRemove => "-question"
  | .unknown => "unknown"

/-- `MessageType` enum (enums.py lines 52-65), in declaration order. -/
inductive MessageType where
  | text
  | reaction
  | audio
  | attachments
  | sticker
  | location
deriving DecidableEq, Repr

/-- `MessageType.value` strings. -/
def MessageType.value : MessageType → String
  | .text => "text"
  | .reaction => "reaction"
  | .audio => "audio"
  | .attachments => "attachments"
  | .sticker => "sticker"
  | .location => "location"

/-- `Effect` enum (enums.py lines 68-87). -/
inductive Effect where
  | slam
  | loud
  | gentle
  | invisibleInk
  | echo
  | spotlight
  | balloons
  | confetti
  | love
  | lasers
  | fireworks
  | shootingStar
  | celebration
deriving DecidableEq, Repr

/-- `Effect.value` strings. -/
def Effect.value : Effect → String
  | .slam => "slam"
  | .loud => "loud"
  | .gentle => "gentle"
  | .invisibleInk => "invisibleInk"
  | .echo => "echo"
  | .spotlight => "spotlight"
  | .balloons => "balloons"
  | .confetti => "confetti"
  | .love => "love"
  | .lasers => "lasers"
  | .fireworks => "fireworks"
  | .shootingStar => "shootingStar"
  | .celebration => "celebration"

/-- The common `OutboundMessage` fields (messages.py lines 33-38). -/
structure CommonFields where
  recipient : Option String
  group_id : Option String
  reply_to_id : Option String
  passthrough : Option String
  service : Option ServiceType
  timeout_seconds : Option Int
deriving DecidableEq, Repr

/-- `CommonFields` with everything unset, for building concrete messages. -/
def CommonFields.empty : CommonFields :=
  ⟨none, none, none, none, none, none⟩

/-- `OutboundMessage.ensure_valid_target` (messages.py lines 42-49): raise
`ValueError` when both `recipient` and `group_id` are falsy (absent or
empty), otherwise succeed. -/
def ensureValidTarget (c : CommonFields) : Except String Unit :=
  if !truthyOpt c.recipient && !truthyOpt c.group_id then
    Except.error "Either recipient or group_id must be provided"
  else
    Except.ok ()

/-- The `OutboundMessage` variants (messages.py classes
`IMessageTextMessage`, `IMessageReactionMessage`, `IMessageAudioMessage`)
as a tagged union over the shared `CommonFields`. -/
inductive OutboundMsg where
  | text (common : CommonFields) (text : String) (subject : Option String)
      (attachments : Option (List String)) (effect : Option Effect)
  | reaction (common : CommonFields) (reaction : ReactionType) (target_message_id : String)
  | audio (common : CommonFields) (media_url : String) (text : Option String)
deriving DecidableEq, Repr

/-- The common fields of any variant. -/
def OutboundMsg.common : OutboundMsg → CommonFields
  | .text c _ _ _ _ => c
  | .reaction c _ _ => c
  | .audio c _ _ => c

/-- The per-URL checks of `_validate_attachments` (messages.py lines 91-106),
in source order: length bound, https scheme, then image extension on the
lowercased URL.  The `isinstance(url, str)` guard cannot fail here since the
embedding types attachments as strings. -/
def checkAttachmentUrl (url : String) : Except String Unit :=
  if url.length > 256 then
    Except.error "attachment URL exceeds 256 characters"
  else if !(pyStartsWith url "https://") then
    Except.error "attachment URL must use https scheme"
  else if !([".png", ".jpg", ".jpeg", ".gif", ".webp"].any
      (fun ext => pyEndsWith (pyLower url) ext)) then
    Except.error "attachments must be image URLs (png/jpg/jpeg/gif/webp)"
  else
    Except.ok ()

/-- The validation loop of `_validate_attachments`: check each URL in order,
re-collecting the list; the first failing URL raises. -/
def validateAttachmentList : List String → Except String (List String)
  | [] => Except.ok []
  | url :: rest =>
    match checkAttachmentUrl url with
    | Except.error e => Except.error e
    | Except.ok _ =>
      match validateAttachmentList rest with
      | Except.error e => Except.error e
      | Except.ok vs => Except.ok (url :: vs)

/-- `IMessageTextMessage._validate_attachments` (messages.py lines 77-107):
`None` passes through; more than 3 URLs fail; otherwise each URL is checked. -/
def validateAttachments : Option (List String) → Except String (Option (List String))
  | none => Except.ok none
  | some v =>
    if v.length > 3 then
      Except.error "attachments cannot have more than 3 URLs"
    else
      match validateAttachmentList v with
      | Except.error e => Except.error e
      | Except.ok vs => Except.ok (some vs)

/-- `IMessageTextMessage._enforce_service_constraints` (messages.py lines
109-123): under SMS, `subject`, `effect` and `reply_to_id` must all be
`None` (checked in that order). -/
def enforceTextServiceConstraints (c : CommonFields) (subject : Option String)
    (effect : Option Effect) : Except String Unit :=
  if c.service = some ServiceType.sms then
    if subject ≠ none then Except.error "SMS does not support subject"
    else if effect ≠ none then Except.error "SMS does not support effect"
    else if c.reply_to_id ≠ none then Except.error "SMS does not support reply_to_id"
    else Except.ok ()
  else Except.ok ()

/-- Constructing an `IMessageTextMessage`: pydantic runs the `attachments`
field validator first, then the after-model validator
`_enforce_service_constraints`. -/
def mkIMessageTextMessage (c : CommonFields) (text : String) (subject : Option String)
    (attachments : Option (List String)) (effect : Option Effect) :
    Except String OutboundMsg :=
  match validateAttachments attachments with
  | Except.error e => Except.error e
  | Except.ok att =>
    match enforceTextServiceConstraints c subject effect with
    | Except.error e => Except.error e
    | Except.ok _ => Except.ok (OutboundMsg.text c text subject att effect)

/-- Constructing an `IMessageReactionMessage`:
`_enforce_reaction_constraints` (messages.py lines 142-151) rejects SMS. -/
def mkIMessageReactionMessage (c : CommonFields) (reaction : ReactionType)
    (target_message_id : String) : Except String OutboundMsg :=
  if c.service = some ServiceType.sms then
    Except.error "SMS does not support reactions"
  else
    Except.ok (OutboundMsg.reaction c reaction target_message_id)

/-- `IMessageAudioMessage._validate_media_url` (messages.py lines 170-177):
the URL must be non-empty and https. -/
def validateMediaUrl (v : String) : Except String Unit :=
  if v == "" then Except.error "media_url is required"
  else if !(pyStartsWith v "https://") then Except.error "media_url must use https scheme"
  else Except.ok ()

/-- Constructing an `IMessageAudioMessage`: the `media_url` field validator
runs first, then `_enforce_audio_constraints` (lines 179-187) rejects SMS. -/
def mkIMessageAudioMessage (c : CommonFields) (media_url : String)
    (text : Option String) : Except String OutboundMsg :=
  match validateMediaUrl media_url with
  | Except.error e => Except.error e
  | Except.ok _ =>
    if c.service = some ServiceType.sms then
      Except.error "SMS does not support audio messages"
    else
      Except.ok (OutboundMsg.audio c media_url text)

/-! ### JSON-like values for webhook bodies and wire payloads

Webhook bodies and Loop wire payloads are untyped JSON-like Python values;
`JValue` models them (numbers as integers — no claim involves floats). -/

/-- An untyped JSON-like Python value. -/
inductive JValue where
  | null
  | bool (b : Bool)
  | num (n : Int)
  | str (s : String)
  | arr (elems : List JValue)
  | obj (fields : List (String × JValue))
deriving Repr

/-- Python truthiness of a `JValue`: `None`, `False`, `0`, `""`, `[]` and
empty dicts are falsy. -/
def JValue.truthy : JValue → Bool
  | .null => false
  | .bool b => b
  | .num n => !(n == 0)
  | .str s => !(s == "")
  | .arr elems => !elems.isEmpty
  | .obj fields => !fields.isEmpty

/-- Python `repr` of a `JValue` (string escaping is not modelled; no claim
depends on the rendering of containers). -/
def pyRepr : JValue → String
  | .null => "None"
  | .bool true => "True"
  | .bool false => "False"
  | .num n => toString n
  | .str s => "\x27" ++ s ++ "\x27"
  | .arr elems => "[" ++ String.intercalate ", "
      (elems.attach.map (fun e => pyRepr e.1)) ++ "]"
  | .obj fields => "\x7b" ++ String.intercalate ", "
      (fields.attach.map (fun f => "\x27" ++ f.1.1 ++ "\x27: " ++ pyRepr f.1.2)) ++ "\x7d"
decreasing_by
  · have := List.sizeOf_lt_of_mem e.2
    simp only [JValue.arr.sizeOf_spec]
    omega
  · obtain ⟨⟨a, b⟩, hf⟩ := f
    have := List.sizeOf_lt_of_mem hf
    simp only [Prod.mk.sizeOf_spec] at this
    simp only [JValue.obj.sizeOf_spec]
    omega

/-- Python `str` of a `JValue`: identity on strings, `repr` otherwise. -/
def pyStr : JValue → String
  | .str s => s
  | v => pyRepr v

/-- Python `d.get(key, default)` on a dict modelled as an association list. -/
def dgetD : List (String × JValue) → String → JValue → JValue
  | [], _, dflt => dflt
  | (k0, v0) :: rest, k, dflt => if k0 = k then v0 else dgetD rest k dflt

/-- Python `d.get(key)` (default `None`). -/
def dget (fields : List (String × JValue)) (k : String) : JValue :=
  dgetD fields k JValue.null

/-- Python `a or b`. -/
def jor (a b : JValue) : JValue :=
  if a.truthy then a else b

/-- Python `d[key] = v` on a `JValue` dict: replace in place or append. -/
def dictInsertJ : List (String × JValue) → String → JValue → List (String × JValue)
  | [], k, v => [(k, v)]
  | (k0, v0) :: rest, k, v =>
    if k0 = k then (k, v) :: rest else (k0, v0) :: dictInsertJ rest k v

/-- Python `key in d` / `d[key]` lookup on a `JValue` dict. -/
def dictLookupJ : List (String × JValue) → String → Option JValue
  | [], _ => none
  | (k0, v0) :: rest, k => if k0 = k then some v0 else dictLookupJ rest k

/-- Python `del d[key]` on a `JValue` dict. -/
def dictEraseJ (fields : List (String × JValue)) (k : String) :
    List (String × JValue) :=
  fields.filter (fun kv => !(kv.1 == k))

/-! ### Loop adapter payload construction (`app/adapters/loop.py` lines 52-100) -/

/-- The `LoopClient` configuration read from the environment in `__init__`:
`sender_name` defaults to `""`, the status-callback settings to `None`. -/
structure LoopClientCfg where
  sender_name : String
  status_callback : Option String
  status_callback_auth : Option String
deriving DecidableEq, Repr

/-- `LoopClient._build_payload` (loop.py lines 52-100), translated line by
line.  Each `if getattr(message, f, None)` truthiness guard is modelled with
`truthyOpt` / pattern matches; dict assignment is `dictInsertJ` and the
reaction branch deletes `reply_to_id` with `dictEraseJ`. -/
def buildPayload (cfg : LoopClientCfg) (message : OutboundMsg) :
    List (String × JValue) :=
  let payload : List (String × JValue) := []
  let payload :=
    if !(cfg.sender_name == "") then
      dictInsertJ payload "sender_name" (JValue.str cfg.sender_name)
    else payload
  let c := message.common
  let payload :=
    if truthyOpt c.group_id then
      dictInsertJ payload "group" (JValue.str (c.group_id.getD ""))
    else if truthyOpt c.recipient then
      dictInsertJ payload "recipient" (JValue.str (c.recipient.getD ""))
    else payload
  let payload :=
    if truthyOpt cfg.status_callback then
      dictInsertJ payload "status_callback" (JValue.str (cfg.status_callback.getD ""))
    else payload
  let payload :=
    if truthyOpt cfg.status_callback_auth then
      dictInsertJ payload "status_callback_header" (JValue.str (cfg.status_callback_auth.getD ""))
    else payload
  let payload :=
    if truthyOpt c.reply_to_id then
      dictInsertJ payload "reply_to_id" (JValue.str (c.reply_to_id.getD ""))
    else payload
  let payload :=
    if truthyOpt c.passthrough then
      dictInsertJ payload "passthrough" (JValue.str (c.passthrough.getD ""))
    else payload
  let payload :=
    match c.service with
    | some s => dictInsertJ payload "service" (JValue.str s.value)
    | none => payload
  let payload :=
    match c.timeout_seconds with
    | some t => if !(t == 0) && 5 ≤ t then dictInsertJ payload "timeout" (JValue.num t) else payload
    | none => payload
  match message with
  | .text _ t subject attachments effect =>
    let payload := dictInsertJ payload "text" (JValue.str t)
    let payload :=
      match attachments with
      | some urls =>
        if !urls.isEmpty then
          dictInsertJ payload "attachments" (JValue.arr (urls.map JValue.str))
        else payload
      | none => payload
    let payload :=
      if truthyOpt subject then
        dictInsertJ payload "subject" (JValue.str (subject.getD ""))
      else payload
    let payload :=
      match effect with
      | some e => dictInsertJ payload "effect" (JValue.str e.value)
      | none => payload
    payload
  | .reaction _ r target_message_id =>
    let payload := dictInsertJ payload "reaction" (JValue.str r.value)
    let payload := dictInsertJ payload "message_id" (JValue.str target_message_id)
    let payload :=
      if (dictLookupJ payload "reply_to_id").isSome then
        dictEraseJ payload "reply_to_id"
      else payload
    payload
  | .audio _ media_url t =>
    let payload := dictInsertJ payload "media_url" (JValue.str media_url)
    let payload :=
      match t with
      | some s => if !(s == "") then dictInsertJ payload "text" (JValue.str s) else payload
      | none => payload
    payload

/-! ### Event normalization (`app/adapters/loop.py` lines 143-285,
`app/types/events.py` lines 10-37) -/

/-- `NormalizedEvent` (events.py), fields in declaration order.  `text` has
pydantic type `str` (default `""`), so it is a `String`, never an option. -/
structure NormalizedEvent where
  alert_type : Option String
  text : String
  recipient : Option String
  message_id : Option String
  group_id : Option String
  reaction : Option ReactionType
  message_type : Option MessageType
deriving DecidableEq, Repr

/-- Pydantic v2 validation of an `Optional[str]` field fed an arbitrary
value: `None` and strings are accepted, every other JSON value (numbers,
booleans, lists, dicts) is rejected with a validation error.  (Pydantic v2
does not coerce non-strings to `str` in its default lax mode.) -/
def strOrNone : JValue → Except String (Option String)
  | JValue.null => Except.ok none
  | JValue.str s => Except.ok (some s)
  | _ => Except.error "Input should be a valid string"

/-- Constructing a `NormalizedEvent`: models the pydantic v2 validation of
the declared field types in events.py.  `normalize_event` passes raw webhook
values for `alert_type` and (in the native branch) `group_id`, so those two
are validated here; the remaining fields are already well-typed at every
call site. -/
def mkNormalizedEvent (alert_type : JValue) (text : String)
    (recipient message_id : Option String) (group_id : JValue)
    (message_type : Option MessageType) (reaction : Option ReactionType) :
    Except String NormalizedEvent :=
  match strOrNone alert_type with
  | Except.error e => Except.error e
  | Except.ok a =>
    match strOrNone group_id with
    | Except.error e => Except.error e
    | Except.ok g =>
      Except.ok ⟨a, text, recipient, message_id, g, reaction, message_type⟩

/-- The members of `MessageType` in declaration order, as iterated by
`for mt in MessageType` (loop.py lines 173-176). -/
def allMessageTypes : List MessageType :=
  [.text, .reaction, .audio, .attachments, .sticker, .location]

/-- The members of `ReactionType` in declaration order (loop.py lines 187-190). -/
def allReactionTypes : List ReactionType :=
  [.love, .like, .dislike, .laugh, .exclaim, .question, .loveRemove, .likeRemove,
   .dislikeRemove, .laughRemove, .exclaimRemove, .questionRemove, .unknown]

/-- The `message_type` parse of the native branch (loop.py lines 164-178):
a string value is matched case-insensitively against the enum values, the
first member in declaration order winning; anything else gives `None`. -/
def parseMessageType (raw : JValue) : Option MessageType :=
  match raw with
  | JValue.str s => allMessageTypes.find? (fun mt => pyLower mt.value == pyLower s)
  | _ => none

/-- The `reaction` parse of the native branch (loop.py lines 180-192). -/
def parseReaction (raw : JValue) : Option ReactionType :=
  match raw with
  | JValue.str s => allReactionTypes.find? (fun rt => pyLower rt.value == pyLower s)
  | _ => none

/-- The text-coercion idiom `if not isinstance(text, str): text = str(text)
if text else ""`: strings pass through (even empty), truthy non-strings are
stringified, falsy non-strings become `""`. -/
def coerceText (v : JValue) : String :=
  match v with
  | JValue.str s => s
  | v => if v.truthy then pyStr v else ""

/-- The raw `group_id` value of the native branch (loop.py lines 156-162):
unwrap a `group` object to its `group_id` member (which may be any value),
keep a string `group`, anything else is `None`. -/
def groupIdRaw (fields : List (String × JValue)) : JValue :=
  match dget fields "group" with
  | JValue.obj g => dget g "group_id"
  | JValue.str s => JValue.str s
  | _ => JValue.null

/-- `LoopClient.normalize_event` (loop.py lines 143-285), translated line by
line.  Python raising (pydantic validation inside the `NormalizedEvent`
constructor) is the `Except.error` case. -/
def normalizeEvent (body : JValue) : Except String NormalizedEvent :=
  match body with
  | JValue.obj fields =>
    if (dget fields "alert_type").truthy then
      -- Native Loop webhook shape
      let group_id := groupIdRaw fields
      let message_type := parseMessageType (dget fields "message_type")
      let reaction := parseReaction (dget fields "reaction")
      let text0 := dgetD fields "text" (JValue.str "")
      let text1 := if text0.truthy then text0 else dgetD fields "content" (JValue.str "")
      let text2 := if text1.truthy then text1 else dgetD fields "message" (JValue.str "")
      let text := coerceText text2
      let r0 := dget fields "recipient"
      let r1 := if r0.truthy then r0 else dget fields "from"
      let r2 :=
        match r1 with
        | JValue.obj rf => jor (dget rf "address") (dget rf "recipient")
        | v => v
      let recipient : Option String :=
        match r2 with
        | JValue.str s => some s
        | _ => none
      let m0 := dget fields "message_id"
      let m1 := if m0.truthy then m0 else dget fields "id"
      let message_id : Option String :=
        match m1 with
        | JValue.str s => some s
        | _ => none
      mkNormalizedEvent (dget fields "alert_type") text recipient message_id
        group_id message_type reaction
    else
      -- Internal testing shape from plan
      let data :=
        match dget fields "data" with
        | JValue.obj d => d
        | _ => []
      let message :=
        match dget data "message" with
        | JValue.obj m => m
        | _ => []
      let text0 := dgetD message "text" (JValue.str "")
      let text1 := if text0.truthy then text0 else dgetD data "text" (JValue.str "")
      let text2 := if text1.truthy then text1 else dgetD fields "text" (JValue.str "")
      let text := coerceText text2
      let r0 :=
        match dget message "from" with
        | JValue.obj ff => dget ff "address"
        | JValue.str s => JValue.str s
        | _ => JValue.null
      let r1 := if r0.truthy then r0 else dget data "from"
      let r2 := if r1.truthy then r1 else dget fields "from"
      let recipient : Option String :=
        match r2 with
        | JValue.str s => some s
        | _ => none
      let m0 := dget message "id"
      let m1 := if m0.truthy then m0 else dget data "id"
      let m2 := if m1.truthy then m1 else dget fields "id"
      let message_id : Option String :=
        match m2 with
        | JValue.str s => some s
        | _ => none
      let g0 := dget data "conversationId"
      let g1 := if g0.truthy then g0 else dget data "group_id"
      let g2 := if g1.truthy then g1 else dget fields "group_id"
      let group_id : JValue :=
        match g2 with
        | JValue.str s => JValue.str s
        | _ => JValue.null
      mkNormalizedEvent (jor (dget fields "event") (dget fields "alert_type"))
        text recipient message_id group_id none none
  | v =>
    -- Handle non-dict payloads gracefully (loop.py lines 145-152)
    mkNormalizedEvent JValue.null (if v.truthy then pyStr v else "") none none
      JValue.null none none

/-- Whether a value is acceptable for a pydantic `Optional[str]` field:
absent (`None`) or a string. -/
def isStrOrNull : JValue → Bool
  | JValue.null => true
  | JValue.str _ => true
  | _ => false

/-- The payload shapes on which `normalize_event` completes without a
pydantic validation error: any non-mapping value; a mapping taking the
native branch whose `alert_type` and `group.group_id` values are strings
(or absent); a mapping taking the wrapped branch whose used
`event`/`alert_type` value is a string or absent. -/
def normalizeSafeShape : JValue → Bool
  | JValue.obj fields =>
    if (dget fields "alert_type").truthy then
      isStrOrNull (dget fields "alert_type") && isStrOrNull (groupIdRaw fields)
    else
      isStrOrNull (jor (dget fields "event") (dget fields "alert_type"))
  | _ => true

/-! ### Webhook dispatch: the dedup check-then-mark sequence under
interleaving (`app/routers/messaging.py` lines 172-222)

For one logical message the handler `webhook_events` performs, against the
shared `_processed_messages` cache, first the duplicate check
(`_is_message_processed`, line 172; when it reports a duplicate the handler
stops with no send) and later — only after context retrieval and reply
generation — the mark (`_mark_message_processed`, line 208) followed by the
outbound `adapter.send_message` (line 211).  No lock is held between the two
and the check/mark pair is not atomic.  The model below runs N = 2 such
handlers for the same message as sequences of these two steps over the
shared cache, under an explicit interleaving schedule; time is held fixed at
`now` (the deliveries are simultaneous). -/

/-- The two cache-touching phases of one webhook handler for a text message:
the duplicate check at entry, and the mark-then-send step after reply
generation. -/
inductive HandlerPhase where
  | check
  | markSend
deriving DecidableEq, Repr

/-- The local state of one in-flight handler: whether its duplicate check
ran, the answer it observed, and how many outbound send attempts it made. -/
structure HandlerState where
  checked : Bool
  dup : Bool
  sent : Nat
deriving DecidableEq, Repr

/-- A handler that has not run yet. -/
def HandlerState.init : HandlerState := ⟨false, false, 0⟩

/-- Run one phase of one handler against the shared cache.  `check` runs
`_is_message_processed` (whose lazy cleanup mutates the shared cache) and
records the answer; `markSend` — enabled only after a check that observed
"not a duplicate", as in the source control flow — runs
`_mark_message_processed` and then performs the outbound send. -/
def handlerStep (md5hex8 : String → String) (message_id recipient : Option String)
    (text : String) (now : Nat) (cache : List (String × Nat)) (h : HandlerState) :
    HandlerPhase → List (String × Nat) × HandlerState
  | HandlerPhase.check =>
    if h.checked then (cache, h)
    else
      let r := isMessageProcessed md5hex8 message_id recipient text now cache
      (r.2, ⟨true, r.1, h.sent⟩)
  | HandlerPhase.markSend =>
    if h.checked && !h.dup && h.sent == 0 then
      (markMessageProcessed md5hex8 message_id recipient text now cache,
       ⟨h.checked, h.dup, h.sent + 1⟩)
    else (cache, h)

/-- Run two concurrent handlers for the same message under an interleaving
schedule (`false` picks the first handler, `true` the second), returning the
total number of outbound send attempts. -/
def raceTwoHandlers (md5hex8 : String → String) (message_id recipient : Option String)
    (text : String) (now : Nat) (cache0 : List (String × Nat))
    (schedule : List (Bool × HandlerPhase)) : Nat :=
  let final := schedule.foldl
    (fun (st : List (String × Nat) × HandlerState × HandlerState) step =>
      let cache := st.1
      let h1 := st.2.1
      let h2 := st.2.2
      if step.1 then
        let r := handlerStep md5hex8 message_id recipient text now cache h2 step.2
        (r.1, h1, r.2)
      else
        let r := handlerStep md5hex8 message_id recipient text now cache h1 step.2
        (r.1, r.2, h2))
    (cache0, HandlerState.init, HandlerState.init)
  final.2.1.sent + final.2.2.sent

/-! ### Helper lemmas on the association-list dict models -/

/-- A key that is not among the keys of the dict looks up to `none`. -/
theorem dictLookupNat_eq_none_of_not_mem (l : List (String × Nat)) (k : String)
    (h : k ∉ l.map Prod.fst) : dictLookupNat l k = none := by
  induction l with
  | nil => rfl
  | cons hd tl ih =>
    simp only [List.map_cons, List.mem_cons, not_or] at h
    rw [dictLookupNat, if_neg (fun heq => h.1 heq.symm), ih h.2]

/-- Lookup after filtering a dict with unique keys: the looked-up entry
survives exactly when it passes the filter. -/
theorem dictLookupNat_filter (l : List (String × Nat)) (p : String × Nat → Bool)
    (k : String) (h : (l.map Prod.fst).Nodup) :
    dictLookupNat (l.filter p) k =
      match dictLookupNat l k with
      | some v => if p (k, v) then some v else none
      | none => none := by
  induction l with
  | nil => rfl
  | cons hd tl ih =>
    obtain ⟨k0, v0⟩ := hd
    simp only [List.map_cons, List.nodup_cons] at h
    by_cases hk : k0 = k
    · subst hk
      by_cases hp : p (k0, v0) = true
      · simp [List.filter_cons, hp, dictLookupNat]
      · have hnone : dictLookupNat (List.filter p tl) k0 = none := by
          apply dictLookupNat_eq_none_of_not_mem
          intro hmem
          apply h.1
          obtain ⟨kv, hkv, hfst⟩ := List.mem_map.mp hmem
          exact List.mem_map.mpr ⟨kv, (List.mem_filter.mp hkv).1, hfst⟩
        simp [List.filter_cons, hp, dictLookupNat, hnone]
    · by_cases hp : p (k0, v0) = true
      · simp [List.filter_cons, hp, dictLookupNat, hk, ih h.2]
      · simp [List.filter_cons, hp, dictLookupNat, hk, ih h.2]

/-- Inserting a key into a dict preserves every entry with a different key. -/
theorem mem_dictInsertNat_of_ne (l : List (String × Nat)) (k : String) (v : Nat)
    (kv : String × Nat) (hmem : kv ∈ l) (hne : kv.1 ≠ k) :
    kv ∈ dictInsertNat l k v := by
  induction l with
  | nil => cases hmem
  | cons hd tl ih =>
    obtain ⟨k0, v0⟩ := hd
    rcases List.mem_cons.mp hmem with heq | htl
    · subst heq
      by_cases hk : k0 = k
      · exact absurd hk hne
      · simp only [dictInsertNat, if_neg hk]
        exact List.mem_cons_self _ _
    · by_cases hk : k0 = k
      · simp only [dictInsertNat, if_pos hk]
        exact List.mem_cons_of_mem _ htl
      · simp only [dictInsertNat, if_neg hk]
        exact List.mem_cons_of_mem _ (ih htl)

/-- The cache returned by the duplicate check is the lazily-purged cache. -/
theorem isMessageProcessed_snd (md5hex8 : String → String)
    (message_id recipient : Option String) (text : String) (now : Nat)
    (cache : List (String × Nat)) :
    (isMessageProcessed md5hex8 message_id recipient text now cache).2 =
      cleanupOldMessages now cache := by
  unfold isMessageProcessed
  cases hm : dictLookupNat (cleanupOldMessages now cache)
      (getMessageKey md5hex8 message_id recipient text) <;> simp [hm]

/-- The boolean returned by the duplicate check, as a function of the
lookup in the purged cache. -/
theorem isMessageProcessed_fst (md5hex8 : String → String)
    (message_id recipient : Option String) (text : String) (now : Nat)
    (cache : List (String × Nat)) :
    (isMessageProcessed md5hex8 message_id recipient text now cache).1 =
      match dictLookupNat (cleanupOldMessages now cache)
          (getMessageKey md5hex8 message_id recipient text) with
      | some last => decide (now - last < RATE_LIMIT_WINDOW)
      | none => false := by
  unfold isMessageProcessed
  cases hm : dictLookupNat (cleanupOldMessages now cache)
      (getMessageKey md5hex8 message_id recipient text) <;> simp [hm]

/-! ### C2 — lazy purge on check and on mark -/

/-- C2, counterexample.  The claim states that every mark
(`_mark_message_processed`) first purges all entries older than the 1-hour
TTL, so that afterwards no expired entry remains.  At the concrete input
below, a cache holding the entry `("stale", 0)` — 7200 seconds old, i.e.
older than the TTL — still holds that entry after a mark at time 7200:
`_mark_message_processed` performs no purge. -/
theorem mark_leaves_expired_entry :
    ("stale", 0) ∈ markMessageProcessed (fun s => s) (some "m") (some "r") "t" 7200
      [("stale", 0)] ∧ 7200 - 0 > MESSAGE_CACHE_TTL := by
  decide

/-- C2, amended.  Every duplicate check (`_is_message_processed`) first
purges the dedup cache, so after a check no entry older than the 1-hour TTL
remains; the mark (`_mark_message_processed`) performs no purge — it only
writes the timestamp for its own key, and every entry with a different key
(expired or not) survives it. -/
theorem cleanup_on_check_not_on_mark :
    (∀ (md5hex8 : String → String) (message_id recipient : Option String)
        (text : String) (now : Nat) (cache : List (String × Nat))
        (kv : String × Nat),
      kv ∈ (isMessageProcessed md5hex8 message_id recipient text now cache).2 →
        now - kv.2 ≤ MESSAGE_CACHE_TTL) ∧
    (∀ (md5hex8 : String → String) (message_id recipient : Option String)
        (text : String) (now : Nat) (cache : List (String × Nat))
        (kv : String × Nat),
      kv ∈ cache → kv.1 ≠ getMessageKey md5hex8 message_id recipient text →
        kv ∈ markMessageProcessed md5hex8 message_id recipient text now cache) := by
  constructor
  · intro md5hex8 message_id recipient text now cache kv hmem
    rw [isMessageProcessed_snd] at hmem
    unfold cleanupOldMessages at hmem
    have hkeep : ¬ (now - kv.2 > MESSAGE_CACHE_TTL) := by
      have := (List.mem_filter.mp hmem).2
      simp only [Bool.not_eq_true', decide_eq_false_iff_not] at this
      exact this
    omega
  · intro md5hex8 message_id recipient text now cache kv hmem hne
    exact mem_dictInsertNat_of_ne _ _ _ _ hmem hne

/-- C2, witness for `cleanup_on_check_not_on_mark` at concrete inputs:
a fresh entry survives a check at time 9, and an entry under a key other
than the marked one survives a mark at time 60. -/
theorem cleanup_on_check_not_on_mark_witness :
    (9 - 5 ≤ MESSAGE_CACHE_TTL) ∧
    ("other", 50) ∈ markMessageProcessed (fun s => s) none none "x" 60 [("other", 50)] :=
  ⟨cleanup_on_check_not_on_mark.1 (fun s => s) none none "x" 9 [("a", 5)] ("a", 5)
      (by decide),
   cleanup_on_check_not_on_mark.2 (fun s => s) none none "x" 60 [("other", 50)]
      ("other", 50) (by decide) (by decide)⟩

/-! ### C3 — ensure_valid_target -/

/-- C3, counterexample.  The claim states `ensure_valid_target` enforces an
exactly-one (XOR) invariant, failing in particular when both `recipient`
and `group_id` are set.  At the concrete message below with both set, the
source succeeds (it only rejects the neither-set case). -/
theorem ensure_valid_target_accepts_both :
    ensureValidTarget ⟨some "+15551234567", some "g1", none, none, none, none⟩ =
      Except.ok () := by
  rfl

/-- C3, amended.  `ensure_valid_target` raises its validation error exactly
when neither `recipient` nor `group_id` is set (absent or empty); it
succeeds when at least one is set — including when both are set, so the
exactly-one (XOR) invariant is not enforced. -/
theorem ensure_valid_target_characterization :
    ∀ c : CommonFields,
      (ensureValidTarget c = Except.ok () ↔
        (truthyOpt c.recipient || truthyOpt c.group_id) = true) ∧
      (ensureValidTarget c = Except.error "Either recipient or group_id must be provided" ↔
        (truthyOpt c.recipient || truthyOpt c.group_id) = false) := by
  intro c
  unfold ensureValidTarget
  cases hr : truthyOpt c.recipient <;> cases hg : truthyOpt c.group_id <;> simp

/-! ### C4 — the duplicate check reports a duplicate iff within the window -/

/-- C4.  For a cache with unique keys (as a Python dict has): if the
fingerprint is absent, `_is_message_processed` returns `False`; if present
with stored timestamp `last`, it returns `True` exactly when
`now - last < RATE_LIMIT_WINDOW` (10 seconds) — in particular an entry 10
seconds old or older is treated as fresh.  The lazy TTL purge cannot change
the answer because the TTL (1 hour) is larger than the window. -/
theorem is_message_processed_spec (md5hex8 : String → String)
    (message_id recipient : Option String) (text : String) (now : Nat)
    (cache : List (String × Nat)) (h : (cache.map Prod.fst).Nodup) :
    (dictLookupNat cache (getMessageKey md5hex8 message_id recipient text) = none →
      (isMessageProcessed md5hex8 message_id recipient text now cache).1 = false) ∧
    (∀ last, dictLookupNat cache (getMessageKey md5hex8 message_id recipient text) = some last →
      ((isMessageProcessed md5hex8 message_id recipient text now cache).1 = true ↔
        now - last < RATE_LIMIT_WINDOW)) := by
  have hfil2 : dictLookupNat (cleanupOldMessages now cache)
      (getMessageKey md5hex8 message_id recipient text) =
      match dictLookupNat cache (getMessageKey md5hex8 message_id recipient text) with
      | some v => if (!(now - v > MESSAGE_CACHE_TTL : Bool)) = true then some v else none
      | none => none :=
    dictLookupNat_filter cache (fun kv => !(now - kv.2 > MESSAGE_CACHE_TTL : Bool))
      (getMessageKey md5hex8 message_id recipient text) h
  constructor
  · intro hnone
    rw [isMessageProcessed_fst, hfil2, hnone]
  · intro last hsome
    have hfil3 : dictLookupNat (cleanupOldMessages now cache)
        (getMessageKey md5hex8 message_id recipient text) =
        if (!(now - last > MESSAGE_CACHE_TTL : Bool)) = true then some last else none := by
      rw [hfil2, hsome]
    rw [isMessageProcessed_fst, hfil3]
    by_cases httl : now - last > MESSAGE_CACHE_TTL
    · have hfalse : (!(now - last > MESSAGE_CACHE_TTL : Bool)) = false := by
        simp [httl]
      rw [hfalse]
      simp only [MESSAGE_CACHE_TTL] at httl
      simp only [RATE_LIMIT_WINDOW]
      simp only [Bool.false_eq_true, if_false]
      constructor
      · intro hcontr
        exact absurd hcontr (by simp)
      · intro hwin
        omega
    · have htrue : (!(now - last > MESSAGE_CACHE_TTL : Bool)) = true := by
        simp [httl]
      rw [htrue]
      simp

/-- C4, witness for `is_message_processed_spec`: with the identity in place
of the short hash, the key of an anonymous message with text `"Hi"` is
`no-id|no-recipient|hi`; a cache entry 5 seconds old is reported as a
duplicate exactly because 5 < 10. -/
theorem is_message_processed_spec_witness :
    ((isMessageProcessed (fun s => s) none none "Hi" 1000
        [("no-id|no-recipient|hi", 995)]).1 = true ↔
      1000 - 995 < RATE_LIMIT_WINDOW) :=
  (is_message_processed_spec (fun s => s) none none "Hi" 1000
      [("no-id|no-recipient|hi", 995)] (by decide)).2 995 (by decide)

/-! ### C5 — the dedup fingerprint -/

/-- C5.  The fingerprint is the `|`-joined triple of `message_id` (sentinel
`no-id`), `recipient` (sentinel `no-recipient`) and the short hash of the
trimmed, lowercased text; hence two texts equal after trimming and
lowercasing produce the identical fingerprint for any ids. -/
theorem get_message_key_spec (md5hex8 : String → String)
    (message_id recipient : Option String) (t1 t2 : String)
    (h : pyLower (pyStrip t1) = pyLower (pyStrip t2)) :
    getMessageKey md5hex8 message_id recipient t1 =
      orSentinel message_id "no-id" ++ "|" ++ orSentinel recipient "no-recipient" ++
        "|" ++ md5hex8 (pyLower (pyStrip t1)) ∧
    getMessageKey md5hex8 message_id recipient t1 =
      getMessageKey md5hex8 message_id recipient t2 := by
  refine ⟨rfl, ?_⟩
  unfold getMessageKey
  rw [h]

/-- C5, witness for `get_message_key_spec`: the whitespace variant
`"  Hi "` and `"hi"` trim and lowercase to the same string, so they share
one fingerprint. -/
theorem get_message_key_spec_witness :
    getMessageKey (fun s => s) (some "m1") (some "+15551234567") "  Hi " =
      orSentinel (some "m1") "no-id" ++ "|" ++
        orSentinel (some "+15551234567") "no-recipient" ++ "|" ++
          pyLower (pyStrip "  Hi ") ∧
    getMessageKey (fun s => s) (some "m1") (some "+15551234567") "  Hi " =
      getMessageKey (fun s => s) (some "m1") (some "+15551234567") "hi" :=
  get_message_key_spec (fun s => s) (some "m1") (some "+15551234567") "  Hi " "hi"
    (by decide)

/-! ### Attachment and capability validation lemmas -/

/-- The per-URL attachment check succeeds exactly when the URL is at most
256 characters, https, and carries an image extension (case-insensitively). -/
theorem checkAttachmentUrl_isOk (u : String) :
    (checkAttachmentUrl u).isOk = true ↔
      (u.length ≤ 256 ∧ pyStartsWith u "https://" = true ∧
        ([".png", ".jpg", ".jpeg", ".gif", ".webp"].any
          (fun ext => pyEndsWith (pyLower u) ext)) = true) := by
  unfold checkAttachmentUrl
  split_ifs with h1 h2 h3
  · constructor
    · intro hc
      simp [Except.isOk, Except.toBool] at hc
    · rintro ⟨hl, -, -⟩
      exact absurd h1 (by omega)
  · constructor
    · intro hc
      simp [Except.isOk, Except.toBool] at hc
    · rintro ⟨-, hsw, -⟩
      exact absurd h2 (by simp [hsw])
  · constructor
    · intro hc
      simp [Except.isOk, Except.toBool] at hc
    · rintro ⟨-, -, hext⟩
      exact absurd h3 (by simp [hext])
  · simp only [Except.isOk, Except.toBool, true_iff]
    refine ⟨by omega, ?_, ?_⟩
    · simpa using h2
    · cases hany : ([".png", ".jpg", ".jpeg", ".gif", ".webp"].any
          (fun ext => pyEndsWith (pyLower u) ext)) with
      | true => rfl
      | false => exact absurd (by simp [hany]) h3

/-- The attachment list loop succeeds exactly when every URL passes the
per-URL check. -/
theorem validateAttachmentList_isOk (l : List String) :
    (validateAttachmentList l).isOk = true ↔
      ∀ u ∈ l, (checkAttachmentUrl u).isOk = true := by
  induction l with
  | nil => simp [validateAttachmentList, Except.isOk, Except.toBool]
  | cons u rest ih =>
    constructor
    · intro hok u2 hmem
      unfold validateAttachmentList at hok
      cases hc : checkAttachmentUrl u with
      | error e => rw [hc] at hok; simp [Except.isOk, Except.toBool] at hok
      | ok uu =>
        rw [hc] at hok
        cases hr : validateAttachmentList rest with
        | error e => rw [hr] at hok; simp [Except.isOk, Except.toBool] at hok
        | ok vs =>
          rcases List.mem_cons.mp hmem with heq | hmem2
          · subst heq; simp [hc, Except.isOk, Except.toBool]
          · exact (ih.mp (by simp [hr, Except.isOk, Except.toBool])) u2 hmem2
    · intro hall
      unfold validateAttachmentList
      have hu := hall u (List.mem_cons_self u rest)
      cases hcc : checkAttachmentUrl u with
      | error e => rw [hcc] at hu; simp [Except.isOk, Except.toBool] at hu
      | ok uu =>
        have hrest : (validateAttachmentList rest).isOk = true :=
          ih.mpr (fun u2 h2 => hall u2 (List.mem_cons_of_mem _ h2))
        cases hrr : validateAttachmentList rest with
        | error e => rw [hrr] at hrest; simp [Except.isOk, Except.toBool] at hrest
        | ok vs => simp [Except.isOk, Except.toBool]

/-- `_validate_attachments` on a present list succeeds exactly when the
list has at most 3 entries and every URL passes the per-URL check. -/
theorem validateAttachments_some_isOk (l : List String) :
    (validateAttachments (some l)).isOk = true ↔
      (l.length ≤ 3 ∧ ∀ u ∈ l, (checkAttachmentUrl u).isOk = true) := by
  have hdef : validateAttachments (some l) =
      if l.length > 3 then Except.error "attachments cannot have more than 3 URLs"
      else
        match validateAttachmentList l with
        | Except.error e => Except.error e
        | Except.ok vs => Except.ok (some vs) := rfl
  rw [hdef]
  split_ifs with hlen
  · constructor
    · intro h
      simp [Except.isOk, Except.toBool] at h
    · rintro ⟨h, -⟩
      exact absurd hlen (by omega)
  · have hlen2 : l.length ≤ 3 := by omega
    cases hv : validateAttachmentList l with
    | error e =>
      have hiff := validateAttachmentList_isOk l
      rw [hv] at hiff
      simp only [Except.isOk, Except.toBool, Bool.false_eq_true, false_iff] at hiff
      simp [Except.isOk, Except.toBool, hlen2, hiff]
    | ok vs =>
      have hiff := validateAttachmentList_isOk l
      rw [hv] at hiff
      simp only [Except.isOk, Except.toBool, true_iff] at hiff
      exact iff_of_true rfl ⟨hlen2, hiff⟩

/-! ### C8 — SMS capability constraints at construction time -/

/-- C8, counterexample.  The claim states the listed constructions succeed
whenever `service` is not SMS; but an Audio message whose `media_url` is
not https fails at construction even with `service` unset (the `media_url`
field validator rejects it), so the success half does not hold
unconditionally. -/
theorem audio_http_fails_without_sms :
    (mkIMessageAudioMessage ⟨some "+15551234567", none, none, none, none, none⟩
      "http://cdn.example.com/a.m4a" none).isOk = false := by
  rfl

/-- C8, amended.  With `service = SMS`, construction fails for a Text
message with any of `subject`, `effect`, `reply_to_id` set, for every
Reaction message, and for every Audio message; with `service` not SMS the
same constructions succeed provided the variant's own field validators
pass (valid attachments for Text, https non-empty `media_url` for Audio;
a Reaction always succeeds).  Precisely, construction succeeds iff the
stated characterizations hold. -/
theorem sms_capability_characterization :
    (∀ (c : CommonFields) (t : String) (s : Option String)
        (a : Option (List String)) (e : Option Effect),
      (mkIMessageTextMessage c t s a e).isOk = true ↔
        ((validateAttachments a).isOk = true ∧
          (c.service = some ServiceType.sms →
            s = none ∧ e = none ∧ c.reply_to_id = none))) ∧
    (∀ (c : CommonFields) (r : ReactionType) (tm : String),
      (mkIMessageReactionMessage c r tm).isOk = true ↔
        c.service ≠ some ServiceType.sms) ∧
    (∀ (c : CommonFields) (m : String) (t : Option String),
      (mkIMessageAudioMessage c m t).isOk = true ↔
        ((validateMediaUrl m).isOk = true ∧ c.service ≠ some ServiceType.sms)) := by
  refine ⟨?_, ?_, ?_⟩
  · intro c t s a e
    unfold mkIMessageTextMessage
    cases ha : validateAttachments a with
    | error err => simp [Except.isOk, Except.toBool, ha]
    | ok att =>
      unfold enforceTextServiceConstraints
      by_cases hs : c.service = some ServiceType.sms
      · rw [if_pos hs]
        split_ifs with h1 h2 h3 <;> simp_all [Except.isOk, Except.toBool, ha]
      · rw [if_neg hs]
        simp [Except.isOk, Except.toBool, ha, hs]
  · intro c r tm
    unfold mkIMessageReactionMessage
    by_cases hs : c.service = some ServiceType.sms
    · rw [if_pos hs]
      simp [Except.isOk, Except.toBool, hs]
    · rw [if_neg hs]
      simp [Except.isOk, Except.toBool, hs]
  · intro c m t
    unfold mkIMessageAudioMessage
    cases hm : validateMediaUrl m with
    | error err => simp [Except.isOk, Except.toBool, hm]
    | ok uu =>
      by_cases hs : c.service = some ServiceType.sms
      · rw [if_pos hs]
        simp [Except.isOk, Except.toBool, hm, hs]
      · rw [if_neg hs]
        simp [Except.isOk, Except.toBool, hm, hs]

/-- C8, witness for `sms_capability_characterization`: a concrete Reaction
with `service = SMS` is rejected. -/
theorem sms_capability_witness :
    ((mkIMessageReactionMessage
        ⟨some "+15551234567", none, none, none, some ServiceType.sms, none⟩
        ReactionType.like "m1").isOk = true ↔
      some ServiceType.sms ≠ some ServiceType.sms) :=
  sms_capability_characterization.2.1
    ⟨some "+15551234567", none, none, none, some ServiceType.sms, none⟩
    ReactionType.like "m1"

/-! ### C9 — attachments validation on text-message construction -/

/-- C9.  Constructing an `IMessageTextMessage` (with the other optional
fields unset) carrying an attachments list succeeds iff the list has at
most 3 entries, each at most 256 characters, https, and ending
case-insensitively in one of .png/.jpg/.jpeg/.gif/.webp; concretely, 3
valid https image URLs succeed while a 4th URL, a non-https URL, or a
non-image extension each fail. -/
theorem attachments_validation_spec :
    (∀ (urls : List String) (rcp txt : String),
      (mkIMessageTextMessage ⟨some rcp, none, none, none, none, none⟩ txt none
          (some urls) none).isOk = true ↔
        (urls.length ≤ 3 ∧ ∀ u ∈ urls,
          u.length ≤ 256 ∧ pyStartsWith u "https://" = true ∧
            ([".png", ".jpg", ".jpeg", ".gif", ".webp"].any
              (fun ext => pyEndsWith (pyLower u) ext)) = true)) ∧
    (mkIMessageTextMessage ⟨some "+15551234567", none, none, none, none, none⟩ "hi" none
        (some ["https://cdn.example.com/a.png", "https://cdn.example.com/b.JPG",
          "https://cdn.example.com/c.webp"]) none).isOk = true ∧
    (mkIMessageTextMessage ⟨some "+15551234567", none, none, none, none, none⟩ "hi" none
        (some ["https://cdn.example.com/a.png", "https://cdn.example.com/b.jpg",
          "https://cdn.example.com/c.webp", "https://cdn.example.com/d.gif"]) none).isOk
      = false ∧
    (mkIMessageTextMessage ⟨some "+15551234567", none, none, none, none, none⟩ "hi" none
        (some ["http://cdn.example.com/a.png"]) none).isOk = false ∧
    (mkIMessageTextMessage ⟨some "+15551234567", none, none, none, none, none⟩ "hi" none
        (some ["https://cdn.example.com/a.txt"]) none).isOk = false := by
  refine ⟨?_, by rfl, by rfl, by rfl, by rfl⟩
  intro urls rcp txt
  have hbase : (mkIMessageTextMessage ⟨some rcp, none, none, none, none, none⟩ txt none
      (some urls) none).isOk = (validateAttachments (some urls)).isOk := by
    unfold mkIMessageTextMessage enforceTextServiceConstraints
    cases hv : validateAttachments (some urls) <;> simp [Except.isOk, Except.toBool]
  rw [hbase, validateAttachments_some_isOk]
  simp only [checkAttachmentUrl_isOk]

/-- C9, witness for `attachments_validation_spec`: the 3-URL instance of
the characterization. -/
theorem attachments_validation_witness :
    ((mkIMessageTextMessage ⟨some "+15551234567", none, none, none, none, none⟩ "hi" none
        (some ["https://cdn.example.com/a.png"]) none).isOk = true ↔
      (["https://cdn.example.com/a.png"].length ≤ 3 ∧
        ∀ u ∈ ["https://cdn.example.com/a.png"],
          u.length ≤ 256 ∧ pyStartsWith u "https://" = true ∧
            ([".png", ".jpg", ".jpeg", ".gif", ".webp"].any
              (fun ext => pyEndsWith (pyLower u) ext)) = true)) :=
  attachments_validation_spec.1 ["https://cdn.example.com/a.png"] "+15551234567" "hi"

/-! ### C6 — normalize_event totality -/

/-- A `NormalizedEvent` construction succeeds whenever the two raw-valued
fields are strings or absent. -/
theorem mkNormalizedEvent_isOk (a : JValue) (t : String)
    (r m : Option String) (g : JValue) (mt : Option MessageType)
    (rc : Option ReactionType) (ha : isStrOrNull a = true)
    (hg : isStrOrNull g = true) :
    (mkNormalizedEvent a t r m g mt rc).isOk = true := by
  cases a <;> cases g <;>
    simp_all [isStrOrNull, mkNormalizedEvent, strOrNone, Except.isOk, Except.toBool]

/-- The wrapped branch passes its `group_id` through a string-or-`None`
filter, so the constructed value is always acceptable. -/
theorem isStrOrNull_strFilter (v : JValue) :
    isStrOrNull (match v with | JValue.str s => JValue.str s | _ => JValue.null) = true := by
  cases v <;> rfl

/-- C6, counterexample.  The claim states `normalize_event` never raises on
a dict of any shape.  On the concrete body `{"alert_type": 123}` the native
branch passes the integer `123` to the `NormalizedEvent` constructor, whose
pydantic-validated `Optional[str]` field `alert_type` rejects it: the call
raises a validation error. -/
theorem normalize_event_rejects_int_alert_type :
    (normalizeEvent (JValue.obj [("alert_type", JValue.num 123)])).isOk = false := by
  rfl

/-- C6, amended.  `normalize_event` returns a `NormalizedEvent` without
raising on every non-mapping input and on every mapping whose raw-valued
fields are safe: in the native branch, `alert_type` and an object-wrapped
`group.group_id` must be strings (or absent); in the wrapped branch the
`event`/`alert_type` value used must be a string or absent.  (A non-string
truthy `alert_type`, e.g. the integer 123, makes the pydantic construction
raise, so the unconditional claim fails; whenever a value is returned its
`text` field is a string, possibly empty, by the `text: str` field type.) -/
theorem normalize_event_total_on_safe_shapes (body : JValue)
    (h : normalizeSafeShape body = true) :
    (normalizeEvent body).isOk = true := by
  cases body with
  | obj fields =>
    simp only [normalizeSafeShape] at h
    simp only [normalizeEvent]
    by_cases ht : (dget fields "alert_type").truthy
    · rw [if_pos ht] at h ⊢
      simp only [Bool.and_eq_true] at h
      exact mkNormalizedEvent_isOk _ _ _ _ _ _ _ h.1 h.2
    · rw [if_neg ht] at h ⊢
      exact mkNormalizedEvent_isOk _ _ _ _ _ _ _ h (isStrOrNull_strFilter _)
  | null => rfl
  | bool b => cases b <;> rfl
  | num n => rfl
  | str s => rfl
  | arr es => rfl

/-- C6, witness for `normalize_event_total_on_safe_shapes`: a wrapped-shape
body with a string `event` marker normalizes without raising. -/
theorem normalize_event_total_witness :
    (normalizeEvent (JValue.obj [("event", JValue.str "message.created"),
      ("text", JValue.str "yo")])).isOk = true :=
  normalize_event_total_on_safe_shapes
    (JValue.obj [("event", JValue.str "message.created"),
      ("text", JValue.str "yo")]) (by rfl)

/-! ### C7 — wrapped internal-shape normalization -/

/-- C7.  The wrapped internal-shape body of end-to-end scenario E
normalizes to `text="Hello"`, `recipient="+15551234567"`,
`message_id="m1"`, `group_id="c1"` (and `alert_type="message.created"`). -/
theorem normalize_event_wrapped_example :
    normalizeEvent (JValue.obj [("event", JValue.str "message.created"),
      ("data", JValue.obj [("conversationId", JValue.str "c1"),
        ("message", JValue.obj [("id", JValue.str "m1"), ("text", JValue.str "Hello"),
          ("from", JValue.obj [("address", JValue.str "+15551234567")])])])]) =
    Except.ok ⟨some "message.created", "Hello", some "+15551234567", some "m1",
      some "c1", none, none⟩ := by
  rfl

/-! ### C10 — group addressing takes precedence in the wire payload -/

/-- Lookup after a dict assignment: the assigned key reads back the new
value, every other key is unchanged. -/
theorem dictLookupJ_insert (p : List (String × JValue)) (k : String) (v : JValue)
    (k2 : String) :
    dictLookupJ (dictInsertJ p k v) k2 = if k = k2 then some v else dictLookupJ p k2 := by
  induction p with
  | nil => rfl
  | cons hd tl ih =>
    obtain ⟨k0, v0⟩ := hd
    by_cases hk : k0 = k
    · subst hk
      simp only [dictInsertJ, if_pos rfl]
      by_cases hk2 : k0 = k2
      · subst hk2
        simp [dictLookupJ]
      · simp [dictLookupJ, hk2]
    · simp only [dictInsertJ, if_neg hk]
      by_cases hk2 : k0 = k2
      · subst hk2
        have hne : ¬ k = k0 := fun h => hk h.symm
        simp [dictLookupJ, hne]
      · simp [dictLookupJ, hk2, ih]

/-- Lookup distributes over a conditional dict. -/
theorem dictLookupJ_ite (c : Prop) [Decidable c] (a b : List (String × JValue))
    (k : String) :
    dictLookupJ (if c then a else b) k = if c then dictLookupJ a k else dictLookupJ b k := by
  split <;> rfl

/-- Lookup after a dict deletion: the deleted key reads `none`, every other
key is unchanged. -/
theorem dictLookupJ_erase (p : List (String × JValue)) (k k2 : String) :
    dictLookupJ (dictEraseJ p k) k2 = if k = k2 then none else dictLookupJ p k2 := by
  induction p with
  | nil =>
    simp only [dictEraseJ, List.filter_nil, dictLookupJ]
    split <;> rfl
  | cons hd tl ih =>
    obtain ⟨k0, v0⟩ := hd
    simp only [dictEraseJ, List.filter_cons] at ih ⊢
    by_cases hk : k0 = k
    · subst hk
      simp only [beq_self_eq_true, Bool.not_true, Bool.false_eq_true, if_false]
      rw [ih]
      by_cases hk2 : k0 = k2
      · subst hk2; simp [dictLookupJ]
      · simp [dictLookupJ, hk2]
    · have hbeq : (!(k0 == k)) = true := by simp [hk]
      rw [hbeq]
      simp only [if_true]
      by_cases hk2 : k0 = k2
      · subst hk2
        have hne : ¬ k = k0 := fun h => hk h.symm
        simp [dictLookupJ, hne]
      · simp [dictLookupJ, hk2, ih]

/-- C10.  For any message whose `group_id` and `recipient` are both set
(truthy) — a combination `ensure_valid_target` accepts — the Loop wire
payload built by `_build_payload` carries the `group` key with the group id
and omits the `recipient` key entirely, for every client configuration and
every message variant. -/
theorem build_payload_group_precedence :
    ∀ (cfg : LoopClientCfg) (m : OutboundMsg),
      truthyOpt m.common.group_id = true → truthyOpt m.common.recipient = true →
        (dictLookupJ (buildPayload cfg m) "group" =
            some (JValue.str (m.common.group_id.getD "")) ∧
          dictLookupJ (buildPayload cfg m) "recipient" = none) := by
  intro cfg m hg hr
  obtain ⟨sn, sc, sca⟩ := cfg
  cases m with
  | text c t subject attachments effect =>
    obtain ⟨rcp, gid, rto, pt, svc, ts⟩ := c
    simp only [OutboundMsg.common] at hg hr ⊢
    cases svc <;> cases ts <;> cases attachments <;> cases effect <;>
      simp [buildPayload, OutboundMsg.common, dictLookupJ_insert, dictLookupJ_ite,
        dictLookupJ_erase, dictLookupJ, hg, hr]
  | reaction c r tm =>
    obtain ⟨rcp, gid, rto, pt, svc, ts⟩ := c
    simp only [OutboundMsg.common] at hg hr ⊢
    cases svc <;> cases ts <;>
      simp [buildPayload, OutboundMsg.common, dictLookupJ_insert, dictLookupJ_ite,
        dictLookupJ_erase, dictLookupJ, hg, hr]
  | audio c mu t =>
    obtain ⟨rcp, gid, rto, pt, svc, ts⟩ := c
    simp only [OutboundMsg.common] at hg hr ⊢
    cases svc <;> cases ts <;> cases t <;>
      simp [buildPayload, OutboundMsg.common, dictLookupJ_insert, dictLookupJ_ite,
        dictLookupJ_erase, dictLookupJ, hg, hr]

/-- C10, witness for `build_payload_group_precedence`: a concrete text
message with both `group_id = "g1"` and `recipient = "+15551234567"` set
produces a payload addressed to the group and with no recipient key. -/
theorem build_payload_group_precedence_witness :
    dictLookupJ (buildPayload ⟨"", none, none⟩
        (OutboundMsg.text ⟨some "+15551234567", some "g1", none, none, none, none⟩
          "hi" none none none)) "group" = some (JValue.str "g1") ∧
    dictLookupJ (buildPayload ⟨"", none, none⟩
        (OutboundMsg.text ⟨some "+15551234567", some "g1", none, none, none, none⟩
          "hi" none none none)) "recipient" = none :=
  build_payload_group_precedence ⟨"", none, none⟩
    (OutboundMsg.text ⟨some "+15551234567", some "g1", none, none, none, none⟩
      "hi" none none none) (by rfl) (by rfl)

/-! ### C1 — the dedup check-then-mark race -/

/-- C1.  Two simultaneous deliveries of the identical webhook body
(`message_id = "m1"`, `recipient = "+15551234567"`, text `"hello"`, both at
time 1000 on an empty cache): under the interleaving that runs both
duplicate checks before either mark, both handlers observe "not a
duplicate" and both send — 2 outbound send attempts, not the 1 the claim
requires.  Under the serial schedule the second delivery is correctly
deduplicated, confirming the race window lies between the non-atomic check
and mark. -/
theorem webhook_race_two_sends :
    raceTwoHandlers (fun s => s) (some "m1") (some "+15551234567") "hello" 1000 []
      [(false, HandlerPhase.check), (true, HandlerPhase.check),
        (false, HandlerPhase.markSend), (true, HandlerPhase.markSend)] = 2 ∧
    raceTwoHandlers (fun s => s) (some "m1") (some "+15551234567") "hello" 1000 []
      [(false, HandlerPhase.check), (false, HandlerPhase.markSend),
        (true, HandlerPhase.check), (true, HandlerPhase.markSend)] = 1 := by
  constructor <;> rfl

end Chip
